import Mathlib

/-!
Verification of the lifecycle-monitor worker pool and scheduler.

Shallow embedding of the Go source:
  * `internal/user/handler.go` (WorkerPool: NewWorkerPool, Start/Stop, Submit,
    SubmitAndWait, SubmitBatch, worker, processResults),
  * `internal/products/service.go` (svc.SaveCrawlResult),
  * `internal/products/dto.go` (CrawlerJob, CrawledData, LifecycleStatusChange),
  * `internal/scheduler/scheduler.go` (runLifecycleUpdateJob, sendStatusChangeEmail).

Modelling conventions:
  * Go channels are lists (the buffered contents); channel capacity is a `Nat`.
  * The correlation table `syncResults : map[string]chan WorkerResult` is an
    association list `List (String × Nat)` where the `Nat` identifies the
    destination channel; insertion overwrites (Go map semantics).
  * Go's `select` picks uniformly at random among ready cases.  Randomness is
    modelled by an explicit oracle (`SelectPick`, `WorkerPick`) consulted
    exactly when more than one case is ready; theorems quantify over oracles.
  * `jobID` generation (`fmt.Sprintf("%s-%d-%d", code, time.Now().UnixNano(), i)`)
    is modelled by an abstract generator `genID : Nat → String` applied to the
    batch index; the source relies on the timestamp/index making IDs unique and
    non-empty, which appears as an explicit hypothesis where needed.
  * The fetcher (`crawler.Collect`) is an abstract parameter
    `collect : String → Except String CrawledData`, mirroring Go's
    `(data, err)` convention where exactly one of the two is set.
  * Database access is a pure state (`RepoState`); transient driver errors are
    not injected (claims about persistence condition on successful saves).
-/

/-- `internal/products/dto.go`: one unit of crawl work.  `jobID` is the
internal correlation key, `""` when absent (Go zero value). -/
structure CrawlerJob where
  ProductID : String
  ProductCode : String
  ProductURL : String
  jobID : String := ""
deriving Repr, DecidableEq

/-- `internal/products/dto.go`: data extracted by the crawler for one target. -/
structure CrawledData where
  Description : String
  Status : String
  ReplacementCode : String
  RawHTML : String
deriving Repr, DecidableEq

/-- `internal/user/handler.go`: result of one job.  In Go `Data` is a nullable
pointer and `Error` a nullable error; exactly one is set by the worker. -/
structure WorkerResult where
  Job : CrawlerJob
  Data : Option CrawledData
  Error : Option String
deriving Repr, DecidableEq

/-- `internal/products/dto.go`: a detected change of lifecycle status. -/
structure LifecycleStatusChange where
  ProductCode : String
  OldStatus : String
  NewStatus : String
deriving Repr, DecidableEq

/-! ## The correlation table (`syncResults map[string]chan WorkerResult`)

Association list from correlation key to a channel identifier.  `tinsert`
overwrites like a Go map store, `terase` is `delete`, `tlookup` is map read. -/

/-- Keys present in a correlation table. -/
def tkeys (t : List (String × Nat)) : List String := t.map (·.1)

/-- Go map store `m[k] = v` (overwrite semantics). -/
def tinsert (k : String) (v : Nat) (t : List (String × Nat)) : List (String × Nat) :=
  (k, v) :: t.filter (fun p => p.1 ≠ k)

/-- Go map `delete(m, k)`. -/
def terase (k : String) (t : List (String × Nat)) : List (String × Nat) :=
  t.filter (fun p => p.1 ≠ k)

/-- Go map read `m[k]` returning presence. -/
def tlookup (k : String) (t : List (String × Nat)) : Option Nat :=
  (t.find? (fun p => p.1 = k)).map (·.2)

/-- `for i := range jobs { wp.syncResults[jobID] = internalChan }`:
register a list of keys, all mapped to the same channel. -/
def insertAll (ks : List String) (v : Nat) (t : List (String × Nat)) : List (String × Nat) :=
  match ks with
  | [] => t
  | k :: rest => insertAll rest v (tinsert k v t)

/-- `for _, id := range jobIDs { delete(wp.syncResults, id) }`. -/
def eraseKeys (ks : List String) (t : List (String × Nat)) : List (String × Nat) :=
  match ks with
  | [] => t
  | k :: rest => eraseKeys rest (terase k t)

/-! ## Pool state (`WorkerPool` struct) -/

/-- The mutable state of a `WorkerPool` relevant to submission and correlation:
`isRunning`, the cancellation flag of the pool context (`ctx.Done()` closed),
the buffered `jobs` channel with its capacity, the capacity of the shared
`results` channel, the worker count, and the correlation table. -/
structure PoolState where
  isRunning : Bool
  ctxDone : Bool
  queue : List CrawlerJob
  queueCap : Nat
  resultsCap : Nat
  numWorkers : Int
  syncResults : List (String × Nat)
deriving Repr, DecidableEq

/-- `WorkerPoolConfig` (Go `int` fields, may be zero or negative). -/
structure WorkerPoolConfig where
  NumWorkers : Int
  QueueSize : Int
deriving Repr, DecidableEq

/-- `NewWorkerPool` (handler.go): defaults `NumWorkers <= 0 → 3` and
`QueueSize <= 0 → 100`; `jobs` and `results` are each created with capacity
`QueueSize`.  The new pool is not running, its context not cancelled, its
queue and correlation table empty. -/
def NewWorkerPool (config : WorkerPoolConfig) : PoolState :=
  let nw : Int := if config.NumWorkers ≤ 0 then 3 else config.NumWorkers
  let qs : Int := if config.QueueSize ≤ 0 then 100 else config.QueueSize
  { isRunning := false
    ctxDone := false
    queue := []
    queueCap := qs.toNat
    resultsCap := qs.toNat
    numWorkers := nw
    syncResults := [] }

/-! ## Submit -/

/-- Errors returned by `Submit` (handler.go builds them with `fmt.Errorf`). -/
inductive SubmitError where
  | poolNotRunning
  | shuttingDown
  | queueFull
deriving Repr, DecidableEq

/-- Oracle resolving Go's random `select` choice in `Submit` when both the
send case (`wp.jobs <- job`) and the done case (`<-wp.ctx.Done()`) are ready. -/
inductive SelectPick where
  | sendCase
  | doneCase
deriving Repr, DecidableEq

/-- `WorkerPool.Submit` (handler.go):

    if !wp.isRunning { return error("worker pool is not running") }
    select {
    case wp.jobs <- job: return nil
    case <-wp.ctx.Done(): return error("worker pool is shutting down")
    default: return error("job queue is full")
    }

The send case is ready iff the buffered `jobs` channel has free space; the
done case is ready iff the pool context is cancelled; `default` is taken only
when neither is ready.  When both are ready Go chooses at random: `pick`.
(The send-on-closed-channel panic reachable by racing `Submit` against the
`close(wp.jobs)` inside `Stop` is outside this model.) -/
def Submit (pick : SelectPick) (wp : PoolState) (job : CrawlerJob) :
    PoolState × Option SubmitError :=
  if !wp.isRunning then
    (wp, some .poolNotRunning)
  else
    let canSend := wp.queue.length < wp.queueCap
    if canSend ∧ wp.ctxDone then
      match pick with
      | .sendCase => ({ wp with queue := wp.queue ++ [job] }, none)
      | .doneCase => (wp, some .shuttingDown)
    else if canSend then
      ({ wp with queue := wp.queue ++ [job] }, none)
    else if wp.ctxDone then
      (wp, some .shuttingDown)
    else
      (wp, some .queueFull)

/-! ## SubmitBatch -/

/-- The jobID-assignment loop at the head of `SubmitBatch`:
`jobs[i].jobID = fmt.Sprintf("%s-%d-%d", jobs[i].ProductCode, now, i)`,
with the generated string abstracted to `genID i`.  `i` is the running index
(call sites start it at `0`). -/
def annotateFrom (genID : Nat → String) : Nat → List CrawlerJob → List CrawlerJob
  | _, [] => []
  | i, j :: rest => { j with jobID := genID i } :: annotateFrom genID (i + 1) rest

/-- The annotated batch as `SubmitBatch` enqueues it. -/
def annotateJobs (genID : Nat → String) (jobs : List CrawlerJob) : List CrawlerJob :=
  annotateFrom genID 0 jobs

/-- The jobIDs registered by `SubmitBatch` for a batch of `n` jobs. -/
def batchIDs (genID : Nat → String) (n : Nat) : List String :=
  (List.range n).map genID

/-- Outcome of the submission loop of `SubmitBatch`: either all jobs were
enqueued, or `Submit` failed on the job with index `k` (so `submitted = k`). -/
inductive SubmitLoopRes where
  | allOk
  | failedAt (k : Nat) (e : SubmitError)
deriving Repr, DecidableEq

/-- The `for _, job := range jobs { wp.Submit(job) }` loop of `SubmitBatch`,
stopping at the first failure.  `k` counts jobs already submitted. -/
def submitLoop (picks : Nat → SelectPick) (st : PoolState)
    (jobs : List CrawlerJob) (k : Nat) : PoolState × SubmitLoopRes :=
  match jobs with
  | [] => (st, .allOk)
  | j :: rest =>
    match Submit (picks k) st j with
    | (st', none) => submitLoop picks st' rest (k + 1)
    | (st', some e) => (st', .failedAt k e)

/-- What `SubmitBatch` returns, beyond the updated pool state:
  * `emptyClosed` — empty job list: a fresh already-closed channel, nil error;
  * `failed` — a `Submit` call failed: `outputChan` closed, error returned;
  * `started` — all jobs enqueued: the open output channel is returned and the
    relay goroutine (modelled by `relayLoop`) is running; `ids` are the
    registered correlation keys, all mapped to the internal channel. -/
inductive BatchOutcome where
  | emptyClosed
  | failed (e : SubmitError)
  | started (ids : List String)
deriving Repr, DecidableEq

/-- `WorkerPool.SubmitBatch` (handler.go), up to the point where it returns.
`internalChan` identifies the freshly allocated channel
`make(chan WorkerResult, len(jobs))` shared by all of the batch's keys.

Faithful detail: ALL `len(jobs)` keys are registered before the submission
loop runs, but on a mid-loop failure the cleanup deletes only
`jobIDs[:submitted]` — the keys of the jobs that were successfully submitted —
leaving the keys of the failed job and all later jobs in the table. -/
def SubmitBatch (genID : Nat → String) (picks : Nat → SelectPick)
    (internalChan : Nat) (wp : PoolState) (jobs : List CrawlerJob) :
    PoolState × BatchOutcome :=
  if jobs.isEmpty then
    (wp, .emptyClosed)
  else
    let ann := annotateJobs genID jobs
    let ids := batchIDs genID jobs.length
    let st1 := { wp with syncResults := insertAll ids internalChan wp.syncResults }
    match submitLoop picks st1 ann 0 with
    | (st2, .allOk) => (st2, .started ids)
    | (st2, .failedAt k _e) =>
      let st3 := { st2 with syncResults := eraseKeys (ids.take k) st2.syncResults }
      (st3, .failed _e)

/-! ## The worker (`WorkerPool.worker`) -/

/-- The body of one worker iteration after a job was received:
`data, err := wp.crawler.Collect(job.ProductCode)` followed by building the
`WorkerResult` (the randomized jitter sleep does not affect the result). -/
def workerResult (collect : String → Except String CrawledData)
    (job : CrawlerJob) : WorkerResult :=
  match collect job.ProductCode with
  | .ok d => { Job := job, Data := some d, Error := none }
  | .error e => { Job := job, Data := none, Error := some e }

/-- Where the worker dispatches a finished result. -/
inductive Dest where
  | syncChan (ch : Nat)
  | sharedResults
  | dropped
deriving Repr, DecidableEq

/-- The dispatch tail of the worker loop:

    if job.jobID != "" {
      if ch, exists := wp.syncResults[job.jobID]; exists { ch <- result }
    } else { wp.results <- result }

A correlated result whose key is no longer registered is silently dropped. -/
def dispatch (table : List (String × Nat)) (r : WorkerResult) : Dest :=
  if r.Job.jobID ≠ "" then
    match tlookup r.Job.jobID table with
    | some ch => .syncChan ch
    | none => .dropped
  else
    .sharedResults

/-- Oracle for the worker's `select` when both `<-wp.jobs` and
`<-wp.ctx.Done()` are ready. -/
inductive WorkerPick where
  | recvCase
  | doneCase
deriving Repr, DecidableEq

/-- How a run of the worker loop ended. -/
inductive WorkerExit where
  | channelClosed   -- received `ok == false`: intake closed and empty
  | cancelled       -- took the `<-wp.ctx.Done()` case
  | blockedIdle     -- intake open and empty, context live: worker waits
deriving Repr, DecidableEq

/-- One worker's loop (`WorkerPool.worker`), run to its exit against a fixed
intake backlog.  `closed` says whether `close(wp.jobs)` has happened and
`ctxDone` whether the pool context is cancelled (during `Stop` both are true).
Receiving from the buffered intake yields the queued jobs first even when the
channel is closed; `ok == false` only once it is closed AND empty.  When a job
is available and the context is done, both select cases are ready and the
oracle `picks` decides (Go chooses at random).  Returns the processed results
in order, the jobs left behind in the intake, and the exit kind. -/
def workerLoop (collect : String → Except String CrawledData)
    (picks : Nat → WorkerPick) (ctxDone closed : Bool) :
    List CrawlerJob → Nat → List WorkerResult × List CrawlerJob × WorkerExit
  | [], _ =>
    if closed then ([], [], .channelClosed)
    else if ctxDone then ([], [], .cancelled)
    else ([], [], .blockedIdle)
  | j :: rest, n =>
    if ctxDone ∧ picks n = .doneCase then
      ([], j :: rest, .cancelled)
    else
      let r := workerResult collect j
      let (rs, leftover, ex) := workerLoop collect picks ctxDone closed rest (n + 1)
      (r :: rs, leftover, ex)

/-! ## The batch relay goroutine -/

/-- The relay goroutine spawned by `SubmitBatch`:

    received := 0
    for received < len(jobs) {
      select {
      case result := <-internalChan: outputChan <- result; received++
      case <-ctx.Done(): return
      }
    }

`n` is `len(jobs) - received`, `arrivals` the sequence of results the workers
deliver to `internalChan`, and `cancelAfter = some k` means the `ctx.Done()`
case is taken once `k` results have been forwarded (`none`: never cancelled).
Returns `some outputs` when the goroutine exits (running its deferred cleanup
and `close(outputChan)`), `none` when it blocks forever (no arrival, context
never done — the output channel then never closes). -/
def relayLoop : Nat → Option Nat → List WorkerResult → Option (List WorkerResult)
  | 0, _, _ => some []
  | _ + 1, some 0, _ => some []
  | _ + 1, none, [] => none
  | _ + 1, some _, [] => some []
  | n + 1, c, a :: rest =>
    (relayLoop n (c.map (fun k => k - 1)) rest).map (fun out => a :: out)

/-- Everything observable once the relay goroutine of a batch has exited:
what the caller received on the output channel, that the channel was closed,
and the correlation table after the deferred
`for _, id := range jobIDs { delete(wp.syncResults, id) }`. -/
structure BatchRelayResult where
  delivered : List WorkerResult
  channelClosed : Bool
  finalTable : List (String × Nat)
deriving Repr, DecidableEq

/-- The relay goroutine together with its deferred cleanup, observed from the
state `table` the correlation table had while the batch was in flight. -/
def runBatchRelay (n : Nat) (ids : List String) (table : List (String × Nat))
    (cancelAfter : Option Nat) (arrivals : List WorkerResult) : BatchRelayResult :=
  match relayLoop n cancelAfter arrivals with
  | some out =>
    { delivered := out, channelClosed := true, finalTable := eraseKeys ids table }
  | none =>
    { delivered := arrivals, channelClosed := false, finalTable := table }

/-! ## SubmitAndWait -/

/-- How the `select` at the end of `SubmitAndWait` resolves: either the worker
delivered a result to the private channel, or the caller's context fired. -/
inductive WaitOutcome where
  | deliveredResult (r : WorkerResult)
  | ctxCancelled
deriving Repr, DecidableEq

/-- Errors surfaced by `SubmitAndWait`. -/
inductive WaitError where
  | submitFailed (e : SubmitError)
  | jobFailed (e : String)
  | ctxErr
deriving Repr, DecidableEq

/-- `WorkerPool.SubmitAndWait` (handler.go): generate a jobID (abstracted to
the parameter `jobID`), register a fresh one-slot channel `ch` under it,
defer the deregistration, submit, then wait for the result or cancellation.
The deferred `delete(wp.syncResults, jobID)` runs on every exit path. -/
def SubmitAndWait (pick : SelectPick) (outcome : WaitOutcome) (jobID : String)
    (ch : Nat) (wp : PoolState) (job : CrawlerJob) :
    PoolState × Except WaitError (Option CrawledData) :=
  let j := { job with jobID := jobID }
  let st1 := { wp with syncResults := tinsert jobID ch wp.syncResults }
  match Submit pick st1 j with
  | (st2, some e) =>
    ({ st2 with syncResults := terase jobID st2.syncResults }, .error (.submitFailed e))
  | (st2, none) =>
    let stF := { st2 with syncResults := terase jobID st2.syncResults }
    match outcome with
    | .deliveredResult r =>
      match r.Error with
      | some e => (stF, .error (.jobFailed e))
      | none => (stF, .ok r.Data)
    | .ctxCancelled => (stF, .error .ctxErr)

/-! ## Persistence model (`internal/products/service.go`) -/

/-- A row of the `products` table as `SaveCrawlResult` sees it.  Nullable text
columns (`pgtype.Text`) are modelled as `String` with `""` for NULL, matching
`row.LifecycleStatus.String` which is `""` when the column is NULL. -/
structure ProductRec where
  Code : String
  LifecycleStatus : String
  ReplacementUrl : String
deriving Repr, DecidableEq

/-- A row of `product_snapshots` inserted by `CreateSnapshot`. -/
structure SnapshotRec where
  ProductID : String
  Description : String
  Status : String
  RawHtml : String
deriving Repr, DecidableEq

/-- The relevant database state. -/
structure RepoState where
  products : List ProductRec
  snapshots : List SnapshotRec
deriving Repr, DecidableEq

/-- `FindProductByCode` (`SELECT ... WHERE p.code = $1`, `:one`): the first
matching row, or nothing (`pgx.ErrNoRows`). -/
def FindProductByCode (st : RepoState) (code : String) : Option ProductRec :=
  st.products.find? (fun p => p.Code = code)

/-- `CreateSnapshot` (`INSERT INTO product_snapshots ...`).  `Status` and
`RawHtml` arrive as `pgtype.Text` that is NULL when the Go string was empty;
the `""`-for-NULL convention keeps that information. -/
def CreateSnapshot (st : RepoState) (productID description status rawHtml : String) :
    RepoState :=
  { st with
    snapshots := st.snapshots ++
      [{ ProductID := productID, Description := description,
         Status := status, RawHtml := rawHtml }] }

/-- `UpdateProductLifecycleStatus`:

    UPDATE products SET
      lifecycle_status = COALESCE(narg, lifecycle_status),
      replacement_url  = COALESCE(narg, replacement_url)
    WHERE code = $1

A NULL argument (Go empty string, invalid `pgtype.Text`) keeps the stored
value; every row with the code is updated. -/
def UpdateProductLifecycleStatus (st : RepoState)
    (code lifecycleStatus replacementUrl : String) : RepoState :=
  { st with
    products := st.products.map (fun p =>
      if p.Code = code then
        { p with
          LifecycleStatus :=
            if lifecycleStatus = "" then p.LifecycleStatus else lifecycleStatus
          ReplacementUrl :=
            if replacementUrl = "" then p.ReplacementUrl else replacementUrl }
      else p) }

/-- `svc.SaveCrawlResult` (service.go): create the snapshot; then, when the
observed status or replacement code is non-empty, read the currently stored
lifecycle status (empty when the product row is missing), update the product,
and report a `LifecycleStatusChange` exactly when the new status is non-empty
and differs from the stored one. -/
def SaveCrawlResult (st : RepoState) (job : CrawlerJob) (data : CrawledData) :
    RepoState × Option LifecycleStatusChange :=
  let st1 := CreateSnapshot st job.ProductID data.Description data.Status data.RawHTML
  if data.Status ≠ "" ∨ data.ReplacementCode ≠ "" then
    let oldStatus :=
      match FindProductByCode st1 job.ProductCode with
      | some p => p.LifecycleStatus
      | none => ""
    let st2 := UpdateProductLifecycleStatus st1 job.ProductCode data.Status data.ReplacementCode
    let statusChange :=
      if data.Status ≠ "" ∧ oldStatus ≠ data.Status then
        some { ProductCode := job.ProductCode
               OldStatus := oldStatus
               NewStatus := data.Status : LifecycleStatusChange }
      else
        none
    (st2, statusChange)
  else
    (st1, none)

/-! ## Scheduler (`internal/scheduler/scheduler.go`) -/

/-- `repo.ListUniqueProductCodesToCollectRow`: `{id, code, url}`. -/
structure ListProductRow where
  ID : String
  Code : String
  Url : String
deriving Repr, DecidableEq

/-- The job-building loop of `runLifecycleUpdateJob`. -/
def buildJobs (rows : List ListProductRow) : List CrawlerJob :=
  rows.map (fun p =>
    { ProductID := p.ID, ProductCode := p.Code, ProductURL := p.Url, jobID := "" })

/-- Counters and status changes accumulated by the result-consumption loop. -/
structure StreamTally where
  successCount : Nat
  errorCount : Nat
  savesAttempted : Nat
  statusChanges : List LifecycleStatusChange
deriving Repr, DecidableEq

/-- The `for result := range resultsChan` loop: a crawl error counts as
failed; otherwise `SaveCrawlResult` is called (abstracted to `save`, the
`ProductCollector` collaborator, taking the nullable `result.Data`), a save
error counts as failed, and a reported change is appended in arrival order. -/
def processStream
    (save : CrawlerJob → Option CrawledData → Except String (Option LifecycleStatusChange)) :
    List WorkerResult → StreamTally
  | [] => { successCount := 0, errorCount := 0, savesAttempted := 0, statusChanges := [] }
  | r :: rest =>
    let t := processStream save rest
    if r.Error.isSome then
      { t with errorCount := t.errorCount + 1 }
    else
      match save r.Job r.Data with
      | .error _ =>
        { t with errorCount := t.errorCount + 1, savesAttempted := t.savesAttempted + 1 }
      | .ok change =>
        { t with
          successCount := t.successCount + 1
          savesAttempted := t.savesAttempted + 1
          statusChanges := change.toList ++ t.statusChanges }

/-- Plain-text header of the notification ("os seguintes equipamentos..."),
verbatim including the double space. -/
def textHeader : String :=
  "Os seguintes equipamentos mudaram o  lifecycle status:\n\n"

/-- One plain-text entry of the `for _, change := range changes` loop. -/
def textEntry (c : LifecycleStatusChange) : String :=
  "Product: " ++ c.ProductCode ++ "\n" ++
  "  Old Status: " ++ c.OldStatus ++ "\n" ++
  "  New Status: " ++ c.NewStatus ++ "\n\n"

/-- The HTML prologue of `sendStatusChangeEmail`, verbatim. -/
def htmlHeader : String :=
  "<!DOCTYPE html>\n<html>\n<head>\n\t<style>\n\t\tbody \x7b font-family: Arial, sans-serif; \x7d\n\t\ttable \x7b border-collapse: collapse; width: 100%; margin-top: 20px; \x7d\n\t\tth, td \x7b border: 1px solid #ddd; padding: 12px; text-align: left; \x7d\n\t\tth \x7b background-color: #4CAF50; color: white; \x7d\n\t\ttr:nth-child(even) \x7b background-color: #f2f2f2; \x7d\n\t\th2 \x7b color: #333; \x7d\n\t</style>\n</head>\n<body>\n\t<h2>Mudanças no Lifecycle Detectadas</h2>\n\t<p>Os seguintes produtos tiveram mudanças no lifecycle:</p>\n\t<table>\n\t\t<tr>\n\t\t\t<th>Product Code</th>\n\t\t\t<th>Status Antigo</th>\n\t\t\t<th>Novo Status</th>\n\t\t</tr>"

/-- One HTML table row of the `for _, change := range changes` loop. -/
def htmlRow (c : LifecycleStatusChange) : String :=
  "<tr>" ++ "<td>" ++ c.ProductCode ++ "</td>" ++ "<td>" ++ c.OldStatus ++ "</td>" ++
  "<td>" ++ c.NewStatus ++ "</td>" ++ "</tr>"

/-- The HTML epilogue appended after the row loop, verbatim. -/
def htmlFooter : String :=
  "\n\t</table>\n</body>\n</html>"

/-- The plain-text body built by `sendStatusChangeEmail` (the `textBuilder`
accumulation loop). -/
def statusChangeTextBody (changes : List LifecycleStatusChange) : String :=
  changes.foldl (fun acc c => acc ++ textEntry c) textHeader

/-- The HTML body built by `sendStatusChangeEmail` (the `htmlBuilder`
accumulation loop plus the closing tags). -/
def statusChangeHtmlBody (changes : List LifecycleStatusChange) : String :=
  (changes.foldl (fun acc c => acc ++ htmlRow c) htmlHeader) ++ htmlFooter

/-- The hardcoded recipient list in `sendStatusChangeEmail`. -/
def statusChangeRecipients : List String :=
  ["bruno.rc@outlook.com.br", "freitasmatheusrn@gmail.com"]

/-- How many `email.Send` attempts `sendStatusChangeEmail` makes: it returns
early on an empty change list and when the (hardcoded) recipient list is
empty; otherwise it calls `Send` exactly once (a send failure is only
logged). -/
def sendStatusChangeEmailAttempts (changes : List LifecycleStatusChange) : Nat :=
  if changes.isEmpty then 0
  else if statusChangeRecipients.isEmpty then 0
  else 1

/-- Observable effects of one `runLifecycleUpdateJob` run. -/
structure RunOutcome where
  statusEmailAttempts : Nat
  alertAttempts : Nat
  tally : StreamTally
deriving Repr, DecidableEq

/-- The tally of a run that aborted before consuming any result. -/
def emptyTally : StreamTally :=
  { successCount := 0, errorCount := 0, savesAttempted := 0, statusChanges := [] }

/-- `notifyError`: sends one alert email unless `alertRecipients` is empty. -/
def notifyErrorAttempts (alertRecipients : List String) : Nat :=
  if alertRecipients.isEmpty then 0 else 1

/-- `Scheduler.runLifecycleUpdateJob`: list targets (`listResult` is the
collaborator's answer); abort with an alert on failure; return silently when
no products; submit the batch (`submitOutcome`); abort with an alert on
failure; otherwise consume the stream (`stream` is the sequence of results
received before the output channel closed), and send the status-change email
only when at least one change was accumulated. -/
def runLifecycleUpdateJob
    (listResult : Except String (List ListProductRow))
    (submitOutcome : Except SubmitError Unit)
    (stream : List WorkerResult)
    (save : CrawlerJob → Option CrawledData → Except String (Option LifecycleStatusChange))
    (alertRecipients : List String) : RunOutcome :=
  match listResult with
  | .error _ =>
    { statusEmailAttempts := 0
      alertAttempts := notifyErrorAttempts alertRecipients
      tally := emptyTally }
  | .ok rows =>
    if rows.isEmpty then
      { statusEmailAttempts := 0, alertAttempts := 0, tally := emptyTally }
    else
      match submitOutcome with
      | .error _ =>
        { statusEmailAttempts := 0
          alertAttempts := notifyErrorAttempts alertRecipients
          tally := emptyTally }
      | .ok _ =>
        let t := processStream save stream
        { statusEmailAttempts :=
            if t.statusChanges.isEmpty then 0
            else sendStatusChangeEmailAttempts t.statusChanges
          alertAttempts := 0
          tally := t }

/-! ## Basic lemmas about the correlation table -/

theorem tlookup_tinsert_self (k : String) (v : Nat) (t : List (String × Nat)) :
    tlookup k (tinsert k v t) = some v := by
  simp [tlookup, tinsert, List.find?]

theorem tlookup_tinsert_ne (i k : String) (v : Nat) (t : List (String × Nat))
    (h : i ≠ k) : tlookup i (tinsert k v t) = tlookup i t := by
  simp only [tlookup, tinsert]
  rw [List.find?_cons_of_neg _ (by simp [Ne.symm h])]
  congr 1
  induction t with
  | nil => rfl
  | cons p rest ih =>
    by_cases hp : p.1 = k
    · rw [List.filter_cons, if_neg (by simp [hp])]
      rw [List.find?_cons_of_neg _ (by simp [hp, Ne.symm h])]
      exact ih
    · rw [List.filter_cons, if_pos (by simp [hp])]
      by_cases hpi : p.1 = i
      · rw [List.find?_cons_of_pos _ (by simp [hpi]), List.find?_cons_of_pos _ (by simp [hpi])]
      · rw [List.find?_cons_of_neg _ (by simp [hpi]), List.find?_cons_of_neg _ (by simp [hpi])]
        exact ih

theorem tlookup_insertAll (i : String) (v : Nat) :
    ∀ (ks : List String) (t : List (String × Nat)),
      i ∈ ks ∨ tlookup i t = some v → tlookup i (insertAll ks v t) = some v := by
  intro ks
  induction ks with
  | nil =>
    intro t h
    rcases h with h | h
    · cases h
    · simpa [insertAll] using h
  | cons k rest ih =>
    intro t h
    show tlookup i (insertAll rest v (tinsert k v t)) = some v
    by_cases hik : i = k
    · exact ih (tinsert k v t) (Or.inr (by rw [hik]; exact tlookup_tinsert_self k v t))
    · rcases h with h | h
      · rcases List.mem_cons.mp h with h' | h'
        · exact absurd h' hik
        · exact ih (tinsert k v t) (Or.inl h')
      · exact ih (tinsert k v t) (Or.inr (by rw [tlookup_tinsert_ne i k v t hik]; exact h))

theorem terase_tinsert_self (k : String) (v : Nat) (t : List (String × Nat)) :
    terase k (tinsert k v t) = terase k t := by
  simp only [terase, tinsert]
  rw [List.filter_cons, if_neg (by simp)]
  rw [List.filter_filter]
  apply List.filter_congr
  intro p _
  by_cases h : p.1 = k <;> simp [h]

theorem terase_of_not_mem (k : String) (t : List (String × Nat))
    (h : k ∉ tkeys t) : terase k t = t := by
  apply List.filter_eq_self.mpr
  intro p hp
  have : p.1 ≠ k := fun e => h (e ▸ List.mem_map_of_mem _ hp)
  simpa using this

theorem tlookup_terase_self (k : String) (t : List (String × Nat)) :
    tlookup k (terase k t) = none := by
  unfold tlookup
  have h : List.find? (fun p => decide (p.1 = k)) (terase k t) = none := by
    rw [List.find?_eq_none]
    intro p hp
    have h2 : p.1 ≠ k := by simpa using List.of_mem_filter hp
    simpa using h2
  rw [h]
  rfl

theorem eraseKeys_eq_filter :
    ∀ (ks : List String) (t : List (String × Nat)),
      eraseKeys ks t = t.filter (fun p => decide (p.1 ∉ ks))
  | [], t => by simp [eraseKeys]
  | k :: rest, t => by
    show eraseKeys rest (terase k t) = _
    rw [eraseKeys_eq_filter rest (terase k t)]
    simp only [terase]
    rw [List.filter_filter]
    apply List.filter_congr
    intro p _
    by_cases h1 : p.1 = k <;> by_cases h2 : p.1 ∈ rest <;> simp [h1, h2]

theorem tlookup_eraseKeys_of_mem (i : String) (ks : List String)
    (t : List (String × Nat)) (h : i ∈ ks) : tlookup i (eraseKeys ks t) = none := by
  rw [eraseKeys_eq_filter]
  unfold tlookup
  have hf : List.find? (fun p => decide (p.1 = i))
      (t.filter (fun p => decide (p.1 ∉ ks))) = none := by
    rw [List.find?_eq_none]
    intro p hp
    have hmem : p.1 ∉ ks := by simpa using List.of_mem_filter hp
    simp only [decide_eq_true_eq]
    intro e
    exact hmem (e ▸ h)
  rw [hf]
  rfl

theorem filter_insertAll (v : Nat) (ks₀ : List String) :
    ∀ (ks : List String) (t : List (String × Nat)), (∀ k ∈ ks, k ∈ ks₀) →
      (insertAll ks v t).filter (fun p => decide (p.1 ∉ ks₀))
        = t.filter (fun p => decide (p.1 ∉ ks₀))
  | [], _, _ => rfl
  | k :: rest, t, h => by
    show (insertAll rest v (tinsert k v t)).filter _ = _
    rw [filter_insertAll v ks₀ rest (tinsert k v t)
      (fun x hx => h x (List.mem_cons_of_mem _ hx))]
    simp only [tinsert]
    rw [List.filter_cons, if_neg (by simp [h k (List.mem_cons_self k rest)])]
    rw [List.filter_filter]
    apply List.filter_congr
    intro p _
    by_cases h1 : p.1 ∈ ks₀
    · simp [h1]
    · have h2 : p.1 ≠ k := fun e => h1 (e ▸ h k (List.mem_cons_self k rest))
      simp [h1, h2]

theorem eraseKeys_insertAll (ks : List String) (v : Nat) (t : List (String × Nat))
    (h : ∀ p ∈ t, p.1 ∉ ks) : eraseKeys ks (insertAll ks v t) = t := by
  rw [eraseKeys_eq_filter]
  rw [filter_insertAll v ks ks t (fun _ hk => hk)]
  exact List.filter_eq_self.mpr (fun p hp => by simpa using h p hp)

/-! ## Lemmas about Submit and the submission loop -/

theorem Submit_syncResults (pick : SelectPick) (wp : PoolState) (job : CrawlerJob) :
    (Submit pick wp job).1.syncResults = wp.syncResults := by
  cases hr : wp.isRunning <;> cases hd : wp.ctxDone <;>
    by_cases hq : wp.queue.length < wp.queueCap <;> cases pick <;>
      simp [Submit, hr, hd, hq]

theorem Submit_ok_of_room (pick : SelectPick) (wp : PoolState) (job : CrawlerJob)
    (hrun : wp.isRunning = true) (hctx : wp.ctxDone = false)
    (hroom : wp.queue.length < wp.queueCap) :
    Submit pick wp job = ({ wp with queue := wp.queue ++ [job] }, none) := by
  unfold Submit
  simp [hrun, hctx, hroom]

theorem submitLoop_ok (picks : Nat → SelectPick) :
    ∀ (jobs : List CrawlerJob) (st : PoolState) (k : Nat),
      st.isRunning = true → st.ctxDone = false →
      st.queue.length + jobs.length ≤ st.queueCap →
      submitLoop picks st jobs k = ({ st with queue := st.queue ++ jobs }, .allOk)
  | [], st, k, _, _, _ => by simp [submitLoop]
  | j :: rest, st, k, hrun, hctx, hcap => by
    have hlen : st.queue.length + (rest.length + 1) ≤ st.queueCap := by
      simpa [List.length_cons] using hcap
    have hroom : st.queue.length < st.queueCap := by omega
    have hcap' : ({ st with queue := st.queue ++ [j] } : PoolState).queue.length
        + rest.length ≤ ({ st with queue := st.queue ++ [j] } : PoolState).queueCap := by
      simp only [List.length_append, List.length_cons]
      simp only [List.length_nil]
      omega
    show submitLoop picks st (j :: rest) k = _
    rw [submitLoop, Submit_ok_of_room (picks k) st j hrun hctx hroom]
    dsimp only
    rw [submitLoop_ok picks rest { st with queue := st.queue ++ [j] } (k + 1) hrun hctx hcap']
    have heq : (st.queue ++ [j]) ++ rest = st.queue ++ (j :: rest) := by simp
    simp [heq]

/-! ## Lemmas about the relay loop -/

theorem relayLoop_complete :
    ∀ (arr : List WorkerResult), relayLoop arr.length none arr = some arr
  | [] => rfl
  | a :: rest => by
    show relayLoop (rest.length + 1) none (a :: rest) = _
    simp [relayLoop, relayLoop_complete rest]

theorem relayLoop_cancelled :
    ∀ (n k : Nat) (arr : List WorkerResult), k ≤ n →
      relayLoop n (some k) arr = some (arr.take k)
  | 0, k, arr, hk => by
    have : k = 0 := Nat.le_zero.mp hk
    subst this
    simp [relayLoop]
  | n + 1, 0, arr, _ => by simp [relayLoop]
  | n + 1, k + 1, [], _ => by simp [relayLoop]
  | n + 1, k + 1, a :: rest, hk => by
    show relayLoop (n + 1) (some (k + 1)) (a :: rest) = _
    have ih := relayLoop_cancelled n k rest (Nat.le_of_succ_le_succ hk)
    simp [relayLoop, ih]

/-! ## Lemmas about batch annotation and the worker -/

theorem annotateFrom_length (genID : Nat → String) :
    ∀ (i : Nat) (jobs : List CrawlerJob),
      (annotateFrom genID i jobs).length = jobs.length
  | _, [] => rfl
  | i, _ :: rest => by
    simp [annotateFrom, annotateFrom_length genID (i + 1) rest]

theorem annotateFrom_mem (genID : Nat → String) :
    ∀ (i : Nat) (jobs : List CrawlerJob) (j : CrawlerJob),
      j ∈ annotateFrom genID i jobs →
      ∃ m, m < jobs.length ∧ j.jobID = genID (i + m)
  | _, [], _, h => by cases h
  | i, a :: rest, j, h => by
    rcases List.mem_cons.mp h with h' | h'
    · exact ⟨0, by simp, by simp [h']⟩
    · rcases annotateFrom_mem genID (i + 1) rest j h' with ⟨m, hm, hid⟩
      exact ⟨m + 1, by simpa using Nat.succ_lt_succ hm, by
        rw [hid]; congr 1; omega⟩

theorem jobID_erase_eq (j : CrawlerJob) (h : j.jobID = "") :
    ({ j with jobID := "" } : CrawlerJob) = j := by
  cases j
  simp at h
  simp [h]

theorem annotateFrom_strip (genID : Nat → String) :
    ∀ (i : Nat) (jobs : List CrawlerJob), (∀ j ∈ jobs, j.jobID = "") →
      (annotateFrom genID i jobs).map (fun j => { j with jobID := "" }) = jobs
  | _, [], _ => rfl
  | i, a :: rest, h => by
    simp only [annotateFrom, List.map_cons]
    rw [annotateFrom_strip genID (i + 1) rest (fun j hj => h j (List.mem_cons_of_mem _ hj))]
    rw [jobID_erase_eq a (h a (List.mem_cons_self a rest))]

theorem batchIDs_mem (genID : Nat → String) (m n : Nat) (h : m < n) :
    genID m ∈ batchIDs genID n := by
  exact List.mem_map_of_mem genID (List.mem_range.mpr h)

theorem workerResult_Job (collect : String → Except String CrawledData)
    (j : CrawlerJob) : (workerResult collect j).Job = j := by
  unfold workerResult
  cases collect j.ProductCode <;> rfl

/-! ## SubmitBatch success lemma -/

theorem SubmitBatch_ok (genID : Nat → String) (picks : Nat → SelectPick)
    (ic : Nat) (wp : PoolState) (jobs : List CrawlerJob)
    (hne : jobs ≠ []) (hrun : wp.isRunning = true) (hctx : wp.ctxDone = false)
    (hcap : wp.queue.length + jobs.length ≤ wp.queueCap) :
    SubmitBatch genID picks ic wp jobs =
      ({ wp with
          syncResults := insertAll (batchIDs genID jobs.length) ic wp.syncResults
          queue := wp.queue ++ annotateJobs genID jobs },
        .started (batchIDs genID jobs.length)) := by
  unfold SubmitBatch
  rw [if_neg (by simpa [List.isEmpty_iff] using hne)]
  dsimp only
  have hcap2 : ({ wp with
      syncResults := insertAll (batchIDs genID jobs.length) ic wp.syncResults } :
        PoolState).queue.length + (annotateJobs genID jobs).length
      ≤ ({ wp with
      syncResults := insertAll (batchIDs genID jobs.length) ic wp.syncResults } :
        PoolState).queueCap := by
    show wp.queue.length + (annotateJobs genID jobs).length ≤ wp.queueCap
    rw [annotateJobs, annotateFrom_length]
    exact hcap
  rw [submitLoop_ok picks (annotateJobs genID jobs)
    { wp with syncResults := insertAll (batchIDs genID jobs.length) ic wp.syncResults }
    0 hrun hctx hcap2]

/-! ## SubmitAndWait cleanup lemma -/

theorem SubmitAndWait_syncResults (pick : SelectPick) (outcome : WaitOutcome)
    (jobID : String) (ch : Nat) (wp : PoolState) (job : CrawlerJob) :
    (SubmitAndWait pick outcome jobID ch wp job).1.syncResults
      = terase jobID wp.syncResults := by
  unfold SubmitAndWait
  rcases hS : Submit pick { wp with syncResults := tinsert jobID ch wp.syncResults }
      { job with jobID := jobID } with ⟨st2, e⟩
  have hs : st2.syncResults = tinsert jobID ch wp.syncResults := by
    have h := Submit_syncResults pick
      { wp with syncResults := tinsert jobID ch wp.syncResults }
      { job with jobID := jobID }
    rw [hS] at h
    exact h
  have hfin : terase jobID st2.syncResults = terase jobID wp.syncResults := by
    rw [hs, terase_tinsert_self]
  cases e with
  | some err => simp [hS, hfin]
  | none =>
    cases outcome with
    | deliveredResult r =>
      cases hr : r.Error with
      | some e2 => simp [hS, hr, hfin]
      | none => simp [hS, hr, hfin]
    | ctxCancelled => simp [hS, hfin]

/-! ## String lemmas for the notification bodies -/

/-- Rendered entries concatenated in order (`String.join (l.map f)`), used to
describe the accumulation loops of `sendStatusChangeEmail`. -/
def concatMap (f : LifecycleStatusChange → String) : List LifecycleStatusChange → String
  | [] => ""
  | c :: rest => f c ++ concatMap f rest

theorem foldl_append_concatMap (f : LifecycleStatusChange → String) :
    ∀ (l : List LifecycleStatusChange) (acc : String),
      l.foldl (fun a c => a ++ f c) acc = acc ++ concatMap f l
  | [], acc => by simp [concatMap]
  | c :: rest, acc => by
    simp only [List.foldl_cons, concatMap]
    rw [foldl_append_concatMap f rest (acc ++ f c)]
    rw [String.append_assoc]

/-- Splitting a character list at a marker character not occurring on either
side determines the prefix. -/
theorem split_at_char {c : Char} :
    ∀ (s₁ s₂ t₁ t₂ : List Char), c ∉ s₁ → c ∉ s₂ →
      s₁ ++ c :: t₁ = s₂ ++ c :: t₂ → s₁ = s₂
  | [], [], _, _, _, _, _ => rfl
  | [], b :: s₂, t₁, t₂, _, h₂, h => by
    rw [List.nil_append, List.cons_append] at h
    injection h with h1 _
    exact absurd (show c ∈ b :: s₂ by rw [h1]; exact List.mem_cons_self b s₂) h₂
  | a :: s₁, [], t₁, t₂, h₁, _, h => by
    rw [List.nil_append, List.cons_append] at h
    injection h with h1 _
    exact absurd (show c ∈ a :: s₁ by rw [← h1]; exact List.mem_cons_self a s₁) h₁
  | a :: s₁, b :: s₂, t₁, t₂, h₁, h₂, h => by
    rw [List.cons_append, List.cons_append] at h
    injection h with h1 h2
    have ih := split_at_char s₁ s₂ t₁ t₂
      (fun hc => h₁ (List.mem_cons_of_mem a hc))
      (fun hc => h₂ (List.mem_cons_of_mem b hc)) h2
    rw [h1, ih]

theorem textEntry_code_inj (a b : LifecycleStatusChange)
    (ha : '\n' ∉ a.ProductCode.data) (hb : '\n' ∉ b.ProductCode.data)
    (h : textEntry a = textEntry b) : a.ProductCode = b.ProductCode := by
  have hd := congrArg String.data h
  simp only [textEntry, String.data_append, List.append_assoc] at hd
  have hd' := List.append_cancel_left hd
  simp only [List.singleton_append] at hd'
  exact String.ext (split_at_char _ _ _ _ ha hb hd')

theorem htmlRow_code_inj (a b : LifecycleStatusChange)
    (ha : '<' ∉ a.ProductCode.data) (hb : '<' ∉ b.ProductCode.data)
    (h : htmlRow a = htmlRow b) : a.ProductCode = b.ProductCode := by
  have hd := congrArg String.data h
  simp only [htmlRow, String.data_append, List.append_assoc] at hd
  have hd' := List.append_cancel_left (List.append_cancel_left hd)
  simp only [List.cons_append] at hd'
  exact String.ext (split_at_char _ _ _ _ ha hb hd')

/-- Under pairwise-distinct product codes (and codes free of the template's
marker character), the rendered entry of a change occurs exactly once among
the rendered entries. -/
theorem count_map_entry_eq_one (f : LifecycleStatusChange → String)
    (good : LifecycleStatusChange → Prop)
    (hinj : ∀ a b, good a → good b → f a = f b → a.ProductCode = b.ProductCode) :
    ∀ (cs : List LifecycleStatusChange) (c : LifecycleStatusChange),
      c ∈ cs → cs.Pairwise (fun x y => x.ProductCode ≠ y.ProductCode) →
      (∀ x ∈ cs, good x) → (cs.map f).count (f c) = 1
  | [], c, hc, _, _ => absurd hc (List.not_mem_nil c)
  | a :: rest, c, hc, hpw, hg => by
    have hpw' := List.pairwise_cons.mp hpw
    rcases List.mem_cons.mp hc with rfl | hc'
    · rw [List.map_cons, List.count_cons_self]
      have h0 : (rest.map f).count (f c) = 0 := by
        rw [List.count_eq_zero]
        intro hmem
        rcases List.mem_map.mp hmem with ⟨x, hx, hfx⟩
        have hcode := hinj x c (hg x (List.mem_cons_of_mem _ hx))
          (hg c (List.mem_cons_self c rest)) hfx
        exact (hpw'.1 x hx) hcode.symm
      rw [h0]
    · have hfa : f c ≠ f a := by
        intro hfe
        have hcode := hinj c a (hg c hc) (hg a (List.mem_cons_self a rest)) hfe
        exact (hpw'.1 c hc') hcode.symm
      rw [List.map_cons, List.count_cons_of_ne hfa]
      exact count_map_entry_eq_one f good hinj rest c hc' hpw'.2
        (fun x hx => hg x (List.mem_cons_of_mem _ hx))

/-- A target whose code is not among the changed ones contributes no rendered
entry at all. -/
theorem count_map_entry_eq_zero (f : LifecycleStatusChange → String)
    (good : LifecycleStatusChange → Prop)
    (hinj : ∀ a b, good a → good b → f a = f b → a.ProductCode = b.ProductCode)
    (cs : List LifecycleStatusChange) (d : LifecycleStatusChange)
    (hd : d.ProductCode ∉ cs.map (fun c => c.ProductCode))
    (hgood : ∀ x ∈ cs, good x) (hgd : good d) :
    (cs.map f).count (f d) = 0 := by
  rw [List.count_eq_zero]
  intro hmem
  rcases List.mem_map.mp hmem with ⟨x, hx, hfx⟩
  have hcode := hinj x d (hgood x hx) hgd hfx
  exact hd (hcode ▸ List.mem_map_of_mem (fun c => c.ProductCode) hx)

/-! ## Claim theorems -/

/-- Claim C9: SubmitBatch called with an empty job list returns a nil error,
registers no correlation keys, enqueues nothing (the pool state is returned
unchanged), and returns a channel that is already closed and delivers zero
results (`BatchOutcome.emptyClosed`). -/
theorem submitBatch_empty_closed (genID : Nat → String) (picks : Nat → SelectPick)
    (ic : Nat) (wp : PoolState) :
    SubmitBatch genID picks ic wp [] = (wp, .emptyClosed) := rfl

/-- Claim C10: NewWorkerPool uses exactly 3 workers when `NumWorkers` is zero
or negative, capacity exactly 100 for both the job intake queue and the
fire-and-forget result channel when `QueueSize` is zero or negative, and the
configured values unchanged when they are positive. -/
theorem newWorkerPool_defaults (config : WorkerPoolConfig) :
    (config.NumWorkers ≤ 0 → (NewWorkerPool config).numWorkers = 3)
    ∧ (0 < config.NumWorkers → (NewWorkerPool config).numWorkers = config.NumWorkers)
    ∧ (config.QueueSize ≤ 0 →
        (NewWorkerPool config).queueCap = 100 ∧ (NewWorkerPool config).resultsCap = 100)
    ∧ (0 < config.QueueSize →
        ((NewWorkerPool config).queueCap : Int) = config.QueueSize
        ∧ ((NewWorkerPool config).resultsCap : Int) = config.QueueSize) := by
  refine ⟨?_, ?_, ?_, ?_⟩
  · intro h
    simp [NewWorkerPool, h]
  · intro h
    have h' : ¬ config.NumWorkers ≤ 0 := by omega
    simp [NewWorkerPool, h']
  · intro h
    simp [NewWorkerPool, h]
  · intro h
    have h' : ¬ config.QueueSize ≤ 0 := by omega
    simp only [NewWorkerPool, if_neg h']
    constructor <;> exact Int.toNat_of_nonneg (le_of_lt h)

/-- Witness for C10 at concrete configurations: non-positive values fall back
to the defaults 3 and 100; positive values 4 and 7 are kept. -/
theorem newWorkerPool_defaults_witness :
    (NewWorkerPool { NumWorkers := 0, QueueSize := -5 }).numWorkers = 3
    ∧ (NewWorkerPool { NumWorkers := 0, QueueSize := -5 }).queueCap = 100
    ∧ (NewWorkerPool { NumWorkers := 4, QueueSize := 7 }).numWorkers = 4
    ∧ ((NewWorkerPool { NumWorkers := 4, QueueSize := 7 }).queueCap : Int) = 7 := by
  refine ⟨?_, ?_, ?_, ?_⟩
  · exact (newWorkerPool_defaults { NumWorkers := 0, QueueSize := -5 }).1 (by decide)
  · exact ((newWorkerPool_defaults { NumWorkers := 0, QueueSize := -5 }).2.2.1 (by decide)).1
  · exact (newWorkerPool_defaults { NumWorkers := 4, QueueSize := 7 }).2.1 (by decide)
  · exact ((newWorkerPool_defaults { NumWorkers := 4, QueueSize := 7 }).2.2.2 (by decide)).1

/-- The lifecycle status stored for a product code before an update: what
`FindProductByCode` reports, the empty string when there is no row (or the
column is NULL). -/
def priorLifecycleStatus (st : RepoState) (code : String) : String :=
  match FindProductByCode st code with
  | some p => p.LifecycleStatus
  | none => ""

/-- Claim C6: SaveCrawlResult returns a change exactly when the newly observed
status is non-empty and differs from the status stored before the update (it
reads the prior status from the pre-update state), and the change carries the
target's code, the old stored status and the new observed status. -/
theorem saveCrawlResult_change_iff (st : RepoState) (job : CrawlerJob)
    (data : CrawledData) :
    (SaveCrawlResult st job data).2 =
      if data.Status ≠ "" ∧ priorLifecycleStatus st job.ProductCode ≠ data.Status then
        some { ProductCode := job.ProductCode
               OldStatus := priorLifecycleStatus st job.ProductCode
               NewStatus := data.Status }
      else none := by
  unfold SaveCrawlResult priorLifecycleStatus
  by_cases h1 : data.Status = ""
  · by_cases h2 : data.ReplacementCode = ""
    · simp [h1, h2, CreateSnapshot, FindProductByCode]
    · simp [h1, h2, CreateSnapshot, FindProductByCode]
  · simp [h1, CreateSnapshot, FindProductByCode]

/-- A pool mid-shutdown: `Stop` has cancelled the context (`ctxDone`) but the
`isRunning` flag is still on (it is cleared only at the end of `Stop`), and
the intake queue has free space. -/
def shuttingDownPool : PoolState :=
  { isRunning := true, ctxDone := true, queue := [], queueCap := 1,
    resultsCap := 1, numWorkers := 1, syncResults := [] }

/-- A sample job without a correlation key, as external callers build it. -/
def sampleJobC5 : CrawlerJob :=
  { ProductID := "p5", ProductCode := "PROD-005", ProductURL := "u5" }

/-- Counterexample to claim C5 as stated: while shutdown is in progress
(context cancelled, `isRunning` still true) and the queue has space, Go's
`select` may take the send case, so `Submit` enqueues the job and returns nil
instead of the shutting-down error — contradicting both "a shutting-down
error when shutdown is in progress" and "only in the running, non-full,
non-shutdown case is the job enqueued and nil returned". -/
theorem submit_shutdown_race_counterexample :
    shuttingDownPool.ctxDone = true
    ∧ (Submit .sendCase shuttingDownPool sampleJobC5).2 = none
    ∧ (Submit .sendCase shuttingDownPool sampleJobC5).1.queue = [sampleJobC5] := by
  decide

/-- Claim C5 (amended): Submit returns the pool-not-running error when the
pool has not been started, leaving the queue unchanged; when running and not
shutting down it returns the queue-full error (no enqueue) if the bounded
queue is full and otherwise enqueues the job and returns nil; when shutdown
is in progress it returns the shutting-down error if the queue is also full,
while if the queue has space the runtime's select nondeterministically either
returns the shutting-down error (no enqueue) or enqueues the job and returns
nil. -/
theorem submit_case_analysis (wp : PoolState) (job : CrawlerJob) (pick : SelectPick) :
    (wp.isRunning = false → Submit pick wp job = (wp, some .poolNotRunning))
    ∧ (wp.isRunning = true → wp.ctxDone = false → ¬ wp.queue.length < wp.queueCap →
        Submit pick wp job = (wp, some .queueFull))
    ∧ (wp.isRunning = true → wp.ctxDone = true → ¬ wp.queue.length < wp.queueCap →
        Submit pick wp job = (wp, some .shuttingDown))
    ∧ (wp.isRunning = true → wp.ctxDone = false → wp.queue.length < wp.queueCap →
        Submit pick wp job = ({ wp with queue := wp.queue ++ [job] }, none))
    ∧ (wp.isRunning = true → wp.ctxDone = true → wp.queue.length < wp.queueCap →
        Submit pick wp job =
          (if pick = .sendCase then ({ wp with queue := wp.queue ++ [job] }, none)
           else (wp, some .shuttingDown))) := by
  refine ⟨?_, ?_, ?_, ?_, ?_⟩
  · intro h
    simp [Submit, h]
  · intro hrun hctx hfull
    simp [Submit, hrun, hctx, hfull]
  · intro hrun hctx hfull
    simp [Submit, hrun, hctx, hfull]
  · intro hrun hctx hroom
    exact Submit_ok_of_room pick wp job hrun hctx hroom
  · intro hrun hctx hroom
    cases pick <;> simp [Submit, hrun, hctx, hroom]

/-- A pool that was never started. -/
def notRunningPool : PoolState :=
  { isRunning := false, ctxDone := false, queue := [], queueCap := 1,
    resultsCap := 1, numWorkers := 1, syncResults := [] }

/-- A running pool whose one-slot intake queue is already full. -/
def fullPool : PoolState :=
  { isRunning := true, ctxDone := false,
    queue := [{ ProductID := "q", ProductCode := "Q", ProductURL := "qq" }],
    queueCap := 1, resultsCap := 1, numWorkers := 1, syncResults := [] }

/-- Witness for C5 (amended) at concrete pools: not-running, queue-full,
shutting-down-with-full-queue, and the successful enqueue case. -/
theorem submit_case_analysis_witness :
    Submit .doneCase notRunningPool sampleJobC5 = (notRunningPool, some .poolNotRunning)
    ∧ Submit .doneCase fullPool sampleJobC5 = (fullPool, some .queueFull)
    ∧ Submit .doneCase { fullPool with ctxDone := true } sampleJobC5
        = ({ fullPool with ctxDone := true }, some .shuttingDown)
    ∧ Submit .doneCase { notRunningPool with isRunning := true } sampleJobC5
        = ({ notRunningPool with isRunning := true, queue := [sampleJobC5] }, none) := by
  refine ⟨?_, ?_, ?_, ?_⟩
  · exact (submit_case_analysis notRunningPool sampleJobC5 .doneCase).1 rfl
  · exact (submit_case_analysis fullPool sampleJobC5 .doneCase).2.1 rfl rfl (by decide)
  · exact (submit_case_analysis { fullPool with ctxDone := true } sampleJobC5 .doneCase).2.2.1
      rfl rfl (by decide)
  · exact (submit_case_analysis { notRunningPool with isRunning := true } sampleJobC5
      .doneCase).2.2.2.1 rfl rfl (by decide)

/-- A running, healthy pool whose intake queue holds at most one job. -/
def capOnePool : PoolState :=
  { isRunning := true, ctxDone := false, queue := [], queueCap := 1,
    resultsCap := 1, numWorkers := 1, syncResults := [] }

/-- A two-job batch for the cleanup-leak scenario. -/
def leakJobs : List CrawlerJob :=
  [{ ProductID := "pa", ProductCode := "A", ProductURL := "ua" },
   { ProductID := "pb", ProductCode := "B", ProductURL := "ub" }]

/-- Concrete correlation-key generator standing in for the
code-timestamp-index strings of the source. -/
def leakGenID : Nat → String := fun i => "job-" ++ toString i

/-- Claim C2, evaluated at the failing input (a running pool with a one-slot
queue and a two-job batch, so the second `Submit` fails with queue-full):
SubmitBatch registers both keys up front, then on the failure deletes only
`jobIDs[:submitted] = [job-0]`, so the key of the failed second job stays in
the correlation table after the error return — the table is not empty as the
claim requires. -/
theorem submitBatch_cleanup_leak_eval :
    (SubmitBatch leakGenID (fun _ => .sendCase) 5 capOnePool leakJobs).2
        = .failed .queueFull
    ∧ (SubmitBatch leakGenID (fun _ => .sendCase) 5 capOnePool leakJobs).1.syncResults
        = [("job-1", 5)]
    ∧ (SubmitBatch leakGenID (fun _ => .sendCase) 5 capOnePool leakJobs).1.syncResults
        ≠ [] := by
  refine ⟨?_, ?_, ?_⟩ <;> decide

/-- The fetcher outcome used in the shutdown-drain scenario. -/
def c3Collect : String → Except String CrawledData := fun _ => .error "net: fetch failed"

/-- A job sitting in the intake queue, accepted but not yet started. -/
def queuedJob : CrawlerJob :=
  { ProductID := "p3", ProductCode := "PROD-003", ProductURL := "u3" }

/-- Claim C3, evaluated at the failing input: during `Stop` the context is
cancelled BEFORE the intake channel is closed, so a worker whose `select`
lands on the `<-wp.ctx.Done()` case (one of the two ready cases, chosen at
random by Go) exits immediately — with the intake channel closed and one
accepted job still queued, nothing processed.  The queued job is discarded,
contradicting "workers exit only once the intake channel is empty and closed"
and "queued-but-unstarted jobs are never abruptly discarded". -/
theorem worker_discards_queued_job_eval :
    workerLoop c3Collect (fun _ => .doneCase) true true [queuedJob] 0
      = ([], [queuedJob], .cancelled)
    ∧ (workerLoop c3Collect (fun _ => .doneCase) true true [queuedJob] 0).2.1 ≠ [] := by
  refine ⟨?_, ?_⟩ <;> decide

/-- Claim C7: a scheduler run that reaches the result-consumption phase
(listing succeeded with a non-empty target list and batch submission
succeeded) attempts exactly one status-change notification when at least one
status change was accumulated from the stream, and none when zero changes
were accumulated; and a run with zero listed targets attempts zero
notifications and performs zero saves. -/
theorem scheduler_one_email_iff_changes :
    (∀ (rows : List ListProductRow) (stream : List WorkerResult)
       (save : CrawlerJob → Option CrawledData → Except String (Option LifecycleStatusChange))
       (recips : List String), rows ≠ [] →
        (runLifecycleUpdateJob (.ok rows) (.ok ()) stream save recips).statusEmailAttempts
          = if (processStream save stream).statusChanges.isEmpty then 0 else 1)
    ∧ (∀ (sub : Except SubmitError Unit) (stream : List WorkerResult)
         (save : CrawlerJob → Option CrawledData → Except String (Option LifecycleStatusChange))
         (recips : List String),
        (runLifecycleUpdateJob (.ok []) sub stream save recips).statusEmailAttempts = 0
        ∧ (runLifecycleUpdateJob (.ok []) sub stream save recips).tally.savesAttempted = 0) := by
  constructor
  · intro rows stream save recips hne
    have hrows : rows.isEmpty = false := by
      simpa [List.isEmpty_iff] using hne
    simp only [runLifecycleUpdateJob, hrows, Bool.false_eq_true, if_false]
    by_cases hc : (processStream save stream).statusChanges.isEmpty
    · simp [hc]
    · simp [hc, sendStatusChangeEmailAttempts, statusChangeRecipients]
  · intro sub stream save recips
    simp [runLifecycleUpdateJob, emptyTally]

/-- Sample target row for the scheduler witness. -/
def rowC7 : ListProductRow := { ID := "p7", Code := "PROD-007", Url := "u7" }

/-- A result stream with one successful crawl. -/
def streamC7 : List WorkerResult :=
  [{ Job := { ProductID := "p7", ProductCode := "PROD-007", ProductURL := "u7" },
     Data := some { Description := "d", Status := "Discontinued",
                    ReplacementCode := "", RawHTML := "" },
     Error := none }]

/-- Collaborator behavior reporting one status change on every save. -/
def saveC7 : CrawlerJob → Option CrawledData → Except String (Option LifecycleStatusChange) :=
  fun _ _ => .ok (some { ProductCode := "PROD-007", OldStatus := "Active",
                         NewStatus := "Discontinued" })

/-- Collaborator behavior reporting no status change. -/
def saveC7none : CrawlerJob → Option CrawledData → Except String (Option LifecycleStatusChange) :=
  fun _ _ => .ok none

/-- Witness for C7 at concrete runs: with one accumulated change exactly one
notification is attempted, with none accumulated zero, and the zero-target
run attempts zero notifications and zero saves. -/
theorem scheduler_one_email_iff_changes_witness :
    (runLifecycleUpdateJob (.ok [rowC7]) (.ok ()) streamC7 saveC7 []).statusEmailAttempts = 1
    ∧ (runLifecycleUpdateJob (.ok [rowC7]) (.ok ()) streamC7 saveC7none []).statusEmailAttempts = 0
    ∧ (runLifecycleUpdateJob (.ok []) (.ok ()) streamC7 saveC7 []).statusEmailAttempts = 0
    ∧ (runLifecycleUpdateJob (.ok []) (.ok ()) streamC7 saveC7 []).tally.savesAttempted = 0 := by
  refine ⟨?_, ?_, ?_, ?_⟩
  · have h := scheduler_one_email_iff_changes.1 [rowC7] streamC7 saveC7 []
      (by decide)
    simpa [streamC7, saveC7, processStream] using h
  · have h := scheduler_one_email_iff_changes.1 [rowC7] streamC7 saveC7none []
      (by decide)
    simpa [streamC7, saveC7none, processStream] using h
  · exact (scheduler_one_email_iff_changes.2 (.ok ()) streamC7 saveC7 []).1
  · exact (scheduler_one_email_iff_changes.2 (.ok ()) streamC7 saveC7 []).2

/-- Claim C8: for a non-empty accumulated change list (with pairwise-distinct
product codes that do not contain the templates' marker characters), the
plain-text body is the fixed header followed by one entry per change in the
order received, the HTML body is the fixed prologue followed by one table row
per change in the order received plus the closing tags (no sorting in either),
each change's rendered entry/row occurs exactly once, and a target that is not
in the change list has no entry/row at all. -/
theorem statusChangeEmail_bodies (cs : List LifecycleStatusChange) (_hne : cs ≠ [])
    (hpw : cs.Pairwise (fun x y => x.ProductCode ≠ y.ProductCode))
    (hchar : ∀ c ∈ cs, '\n' ∉ c.ProductCode.data ∧ '<' ∉ c.ProductCode.data) :
    statusChangeTextBody cs = textHeader ++ concatMap textEntry cs
    ∧ statusChangeHtmlBody cs = (htmlHeader ++ concatMap htmlRow cs) ++ htmlFooter
    ∧ (∀ c ∈ cs, (cs.map textEntry).count (textEntry c) = 1
        ∧ (cs.map htmlRow).count (htmlRow c) = 1)
    ∧ (∀ d : LifecycleStatusChange, d.ProductCode ∉ cs.map (fun c => c.ProductCode) →
        '\n' ∉ d.ProductCode.data → '<' ∉ d.ProductCode.data →
        (cs.map textEntry).count (textEntry d) = 0
        ∧ (cs.map htmlRow).count (htmlRow d) = 0) := by
  refine ⟨?_, ?_, ?_, ?_⟩
  · exact foldl_append_concatMap textEntry cs textHeader
  · show (cs.foldl (fun acc c => acc ++ htmlRow c) htmlHeader) ++ htmlFooter = _
    rw [foldl_append_concatMap htmlRow cs htmlHeader]
  · intro c hc
    constructor
    · exact count_map_entry_eq_one textEntry
        (fun x => '\n' ∉ x.ProductCode.data ∧ '<' ∉ x.ProductCode.data)
        (fun a b ga gb h => textEntry_code_inj a b ga.1 gb.1 h) cs c hc hpw hchar
    · exact count_map_entry_eq_one htmlRow
        (fun x => '\n' ∉ x.ProductCode.data ∧ '<' ∉ x.ProductCode.data)
        (fun a b ga gb h => htmlRow_code_inj a b ga.2 gb.2 h) cs c hc hpw hchar
  · intro d hd hnl hlt
    constructor
    · exact count_map_entry_eq_zero textEntry
        (fun x => '\n' ∉ x.ProductCode.data ∧ '<' ∉ x.ProductCode.data)
        (fun a b ga gb h => textEntry_code_inj a b ga.1 gb.1 h) cs d hd hchar ⟨hnl, hlt⟩
    · exact count_map_entry_eq_zero htmlRow
        (fun x => '\n' ∉ x.ProductCode.data ∧ '<' ∉ x.ProductCode.data)
        (fun a b ga gb h => htmlRow_code_inj a b ga.2 gb.2 h) cs d hd hchar ⟨hnl, hlt⟩

/-- First concrete change of the C8 witness scenario. -/
def changeA : LifecycleStatusChange :=
  { ProductCode := "PROD-002", OldStatus := "Active", NewStatus := "Discontinued" }

/-- Second concrete change of the C8 witness scenario. -/
def changeB : LifecycleStatusChange :=
  { ProductCode := "PROD-009", OldStatus := "Active", NewStatus := "Obsolete" }

/-- The accumulated list of the C8 witness scenario. -/
def changesC8 : List LifecycleStatusChange := [changeA, changeB]

/-- A target that reported no status change in the C8 witness scenario. -/
def unchangedC8 : LifecycleStatusChange :=
  { ProductCode := "PROD-001", OldStatus := "Active", NewStatus := "Active" }

/-- Witness for C8 at a concrete two-change list: the text body decomposes
into header plus the two entries in order, PROD-002's entry and row appear
exactly once, and the unchanged PROD-001 has no row. -/
theorem statusChangeEmail_bodies_witness :
    statusChangeTextBody changesC8 = textHeader ++ concatMap textEntry changesC8
    ∧ (changesC8.map textEntry).count (textEntry changeA) = 1
    ∧ (changesC8.map htmlRow).count (htmlRow changeA) = 1
    ∧ (changesC8.map htmlRow).count (htmlRow unchangedC8) = 0 := by
  have h := statusChangeEmail_bodies changesC8 (by decide) (by decide) (by decide)
  exact ⟨h.1, (h.2.2.1 changeA (by decide)).1, (h.2.2.1 changeA (by decide)).2,
    (h.2.2.2 unchangedC8 (by decide) (by decide) (by decide)).2⟩

/-- Claim C4: every correlation-table entry registered by a submission
operation is removed again by the time the operation completes.
Part one: after any `SubmitAndWait` (submit error, delivered result with or
without error, or context cancellation — all oracle choices) the generated
key is absent from the table, and a fresh key leaves the table exactly as it
was.  Part two: a successfully submitted batch whose relay goroutine observes
cancellation after `k < N` forwarded results still closes the output channel,
delivers only the first `k` results (fewer than N), and its deferred cleanup
removes all N registered keys, restoring the original table. -/
theorem submission_cleanup_no_leak :
    (∀ (pick : SelectPick) (outcome : WaitOutcome) (jobID : String) (ch : Nat)
       (wp : PoolState) (job : CrawlerJob),
        tlookup jobID (SubmitAndWait pick outcome jobID ch wp job).1.syncResults = none
        ∧ (jobID ∉ tkeys wp.syncResults →
            (SubmitAndWait pick outcome jobID ch wp job).1.syncResults = wp.syncResults))
    ∧ (∀ (wp : PoolState) (jobs : List CrawlerJob) (genID : Nat → String)
         (picks : Nat → SelectPick) (ic k : Nat) (arrivals : List WorkerResult),
        jobs ≠ [] → wp.isRunning = true → wp.ctxDone = false →
        wp.queue.length + jobs.length ≤ wp.queueCap →
        k < jobs.length →
        (∀ p ∈ wp.syncResults, p.1 ∉ batchIDs genID jobs.length) →
        SubmitBatch genID picks ic wp jobs
          = ({ wp with
                syncResults := insertAll (batchIDs genID jobs.length) ic wp.syncResults
                queue := wp.queue ++ annotateJobs genID jobs },
             .started (batchIDs genID jobs.length))
        ∧ (runBatchRelay jobs.length (batchIDs genID jobs.length)
            (insertAll (batchIDs genID jobs.length) ic wp.syncResults)
            (some k) arrivals).channelClosed = true
        ∧ (runBatchRelay jobs.length (batchIDs genID jobs.length)
            (insertAll (batchIDs genID jobs.length) ic wp.syncResults)
            (some k) arrivals).finalTable = wp.syncResults
        ∧ (runBatchRelay jobs.length (batchIDs genID jobs.length)
            (insertAll (batchIDs genID jobs.length) ic wp.syncResults)
            (some k) arrivals).delivered = arrivals.take k
        ∧ (runBatchRelay jobs.length (batchIDs genID jobs.length)
            (insertAll (batchIDs genID jobs.length) ic wp.syncResults)
            (some k) arrivals).delivered.length < jobs.length) := by
  constructor
  · intro pick outcome jobID ch wp job
    rw [SubmitAndWait_syncResults pick outcome jobID ch wp job]
    exact ⟨tlookup_terase_self jobID wp.syncResults,
      fun hfresh => terase_of_not_mem jobID wp.syncResults hfresh⟩
  · intro wp jobs genID picks ic k arrivals hne hrun hctx hcap hk hfresh
    have hrelay : relayLoop jobs.length (some k) arrivals = some (arrivals.take k) :=
      relayLoop_cancelled jobs.length k arrivals (Nat.le_of_lt hk)
    refine ⟨SubmitBatch_ok genID picks ic wp jobs hne hrun hctx hcap, ?_, ?_, ?_, ?_⟩
    · simp [runBatchRelay, hrelay]
    · simp only [runBatchRelay, hrelay]
      exact eraseKeys_insertAll (batchIDs genID jobs.length) ic wp.syncResults hfresh
    · simp [runBatchRelay, hrelay]
    · simp only [runBatchRelay, hrelay]
      have : (arrivals.take k).length ≤ k := by
        simp [List.length_take]
      omega

/-- A running pool with a two-slot intake queue and an empty correlation
table, used by the C4 witness. -/
def capTwoPool : PoolState :=
  { isRunning := true, ctxDone := false, queue := [], queueCap := 2,
    resultsCap := 2, numWorkers := 1, syncResults := [] }

/-- The job of the C4 SubmitAndWait witness scenario. -/
def jobC4 : CrawlerJob :=
  { ProductID := "p4", ProductCode := "PROD-004", ProductURL := "u4" }

/-- The two-job batch of the C4 cancellation witness scenario. -/
def jobsC4 : List CrawlerJob :=
  [{ ProductID := "x1", ProductCode := "X1", ProductURL := "ux1" },
   { ProductID := "x2", ProductCode := "X2", ProductURL := "ux2" }]

/-- Concrete correlation-key generator for the C4 witness. -/
def genC4 : Nat → String := fun i => "batch-" ++ toString i

/-- Worker results arriving on the internal channel in the C4 witness. -/
def arrC4 : List WorkerResult :=
  [{ Job := { ProductID := "x1", ProductCode := "X1", ProductURL := "ux1",
              jobID := "batch-0" }, Data := none, Error := some "e1" },
   { Job := { ProductID := "x2", ProductCode := "X2", ProductURL := "ux2",
              jobID := "batch-1" }, Data := none, Error := some "e2" }]

/-- Witness for C4: a concrete cancelled SubmitAndWait leaves the table
untouched, and a concrete two-job batch cancelled after one forwarded result
closes its channel, delivers one result, and restores the empty table. -/
theorem submission_cleanup_no_leak_witness :
    tlookup "w1" (SubmitAndWait .sendCase .ctxCancelled "w1" 3 capTwoPool jobC4).1.syncResults
        = none
    ∧ (SubmitAndWait .sendCase .ctxCancelled "w1" 3 capTwoPool jobC4).1.syncResults
        = capTwoPool.syncResults
    ∧ (runBatchRelay jobsC4.length (batchIDs genC4 jobsC4.length)
        (insertAll (batchIDs genC4 jobsC4.length) 9 capTwoPool.syncResults)
        (some 1) arrC4).channelClosed = true
    ∧ (runBatchRelay jobsC4.length (batchIDs genC4 jobsC4.length)
        (insertAll (batchIDs genC4 jobsC4.length) 9 capTwoPool.syncResults)
        (some 1) arrC4).finalTable = capTwoPool.syncResults
    ∧ (runBatchRelay jobsC4.length (batchIDs genC4 jobsC4.length)
        (insertAll (batchIDs genC4 jobsC4.length) 9 capTwoPool.syncResults)
        (some 1) arrC4).delivered = arrC4.take 1
    ∧ (runBatchRelay jobsC4.length (batchIDs genC4 jobsC4.length)
        (insertAll (batchIDs genC4 jobsC4.length) 9 capTwoPool.syncResults)
        (some 1) arrC4).delivered.length < jobsC4.length := by
  have h1 := submission_cleanup_no_leak.1 .sendCase .ctxCancelled "w1" 3 capTwoPool jobC4
  have h2 := submission_cleanup_no_leak.2 capTwoPool jobsC4 genC4 (fun _ => .sendCase)
    9 1 arrC4 (by decide) rfl rfl (by decide) (by decide) (by decide)
  exact ⟨h1.1, h1.2 (by decide), h2.2.1, h2.2.2.1, h2.2.2.2.1, h2.2.2.2.2⟩

/-- Claim C1: for a non-empty batch submitted while the pool is running, not
shutting down, and with room for all N jobs (so no submission failure), and
with no cancellation: SubmitBatch succeeds, registering the N keys (all mapped
to the batch's internal channel) and enqueuing the N annotated jobs; whatever
order `comp` the workers complete the jobs in (any permutation of the
annotated batch), every finished result is dispatched to the batch's internal
channel; the relay forwards all of them and closes the output channel; so the
output channel delivers exactly N results before closing, in completion
order, and the Jobs carried by the delivered results are a permutation of the
annotated batch — and, with the internal key erased, of the N submitted jobs. -/
theorem batch_delivers_all (genID : Nat → String) (picks : Nat → SelectPick)
    (ic : Nat) (collect : String → Except String CrawledData)
    (wp : PoolState) (jobs comp : List CrawlerJob)
    (hne : jobs ≠ []) (hrun : wp.isRunning = true) (hctx : wp.ctxDone = false)
    (hcap : wp.queue.length + jobs.length ≤ wp.queueCap)
    (hperm : comp.Perm (annotateJobs genID jobs))
    (hid : ∀ i, genID i ≠ "")
    (hclean : ∀ j ∈ jobs, j.jobID = "") :
    SubmitBatch genID picks ic wp jobs
      = ({ wp with
            syncResults := insertAll (batchIDs genID jobs.length) ic wp.syncResults
            queue := wp.queue ++ annotateJobs genID jobs },
         .started (batchIDs genID jobs.length))
    ∧ (∀ r ∈ comp.map (workerResult collect),
        dispatch (insertAll (batchIDs genID jobs.length) ic wp.syncResults) r
          = .syncChan ic)
    ∧ (runBatchRelay jobs.length (batchIDs genID jobs.length)
        (insertAll (batchIDs genID jobs.length) ic wp.syncResults) none
        (comp.map (workerResult collect))).channelClosed = true
    ∧ (runBatchRelay jobs.length (batchIDs genID jobs.length)
        (insertAll (batchIDs genID jobs.length) ic wp.syncResults) none
        (comp.map (workerResult collect))).delivered = comp.map (workerResult collect)
    ∧ (comp.map (workerResult collect)).length = jobs.length
    ∧ ((comp.map (workerResult collect)).map (fun r => r.Job)).Perm
        (annotateJobs genID jobs)
    ∧ ((comp.map (workerResult collect)).map
        (fun r => ({ r.Job with jobID := "" } : CrawlerJob))).Perm jobs := by
  have hlen_ann : (annotateJobs genID jobs).length = jobs.length := by
    simp [annotateJobs, annotateFrom_length]
  have hlen_comp : comp.length = jobs.length := by
    rw [hperm.length_eq, hlen_ann]
  have harr_len : (comp.map (workerResult collect)).length = jobs.length := by
    simp [hlen_comp]
  have hmap1 : (comp.map (workerResult collect)).map (fun r => r.Job) = comp := by
    rw [List.map_map]
    have he : ∀ j ∈ comp, ((fun r => r.Job) ∘ workerResult collect) j = id j :=
      fun j _ => workerResult_Job collect j
    rw [List.map_congr_left he, List.map_id]
  refine ⟨SubmitBatch_ok genID picks ic wp jobs hne hrun hctx hcap, ?_, ?_, ?_, harr_len, ?_, ?_⟩
  · intro r hr
    rcases List.mem_map.mp hr with ⟨j, hj, rfl⟩
    have hjann : j ∈ annotateFrom genID 0 jobs := hperm.mem_iff.mp hj
    rcases annotateFrom_mem genID 0 jobs j hjann with ⟨m, hm, hjid⟩
    rw [Nat.zero_add] at hjid
    have hmem_ids : j.jobID ∈ batchIDs genID jobs.length := by
      rw [hjid]
      exact batchIDs_mem genID m jobs.length hm
    have hlook : tlookup j.jobID
        (insertAll (batchIDs genID jobs.length) ic wp.syncResults) = some ic :=
      tlookup_insertAll j.jobID ic _ _ (Or.inl hmem_ids)
    have hne' : j.jobID ≠ "" := by
      rw [hjid]
      exact hid m
    unfold dispatch
    rw [workerResult_Job, if_pos hne', hlook]
  · have hrel : relayLoop jobs.length none (comp.map (workerResult collect))
        = some (comp.map (workerResult collect)) := by
      rw [← harr_len]
      exact relayLoop_complete _
    simp [runBatchRelay, hrel]
  · have hrel : relayLoop jobs.length none (comp.map (workerResult collect))
        = some (comp.map (workerResult collect)) := by
      rw [← harr_len]
      exact relayLoop_complete _
    simp [runBatchRelay, hrel]
  · rw [hmap1]
    exact hperm
  · have h := hperm.map (fun j => ({ j with jobID := "" } : CrawlerJob))
    rw [show annotateJobs genID jobs = annotateFrom genID 0 jobs from rfl] at h
    rw [annotateFrom_strip genID 0 jobs hclean] at h
    have hmap2 : (comp.map (workerResult collect)).map
        (fun r => ({ r.Job with jobID := "" } : CrawlerJob))
        = comp.map (fun j => ({ j with jobID := "" } : CrawlerJob)) := by
      rw [List.map_map]
      apply List.map_congr_left
      intro j _
      show ({ (workerResult collect j).Job with jobID := "" } : CrawlerJob) = _
      rw [workerResult_Job]
    rw [hmap2]
    exact h

/-- A running pool with room for four jobs, used by the C1 witness. -/
def poolC1 : PoolState :=
  { isRunning := true, ctxDone := false, queue := [], queueCap := 4,
    resultsCap := 4, numWorkers := 2, syncResults := [] }

/-- The two submitted jobs of the C1 witness (no correlation keys yet). -/
def jobsC1 : List CrawlerJob :=
  [{ ProductID := "y1", ProductCode := "Y1", ProductURL := "uy1" },
   { ProductID := "y2", ProductCode := "Y2", ProductURL := "uy2" }]

/-- Concrete correlation-key generator for the C1 witness. -/
def genC1 : Nat → String := fun i => "k" ++ toString i

/-- The generated keys are never the empty string (the worker would treat an
empty `jobID` as fire-and-forget). -/
theorem genC1_ne_empty : ∀ i, genC1 i ≠ "" := by
  intro i h
  have hd : ("k" : String).data ++ (toString i).data = [] := by
    simpa [genC1, String.data_append] using congrArg String.data h
  exact absurd (List.append_eq_nil.mp hd).1 (by decide)

/-- A completion order that is the reverse of submission order: the second
job finishes first. -/
def compC1 : List CrawlerJob :=
  [{ ProductID := "y2", ProductCode := "Y2", ProductURL := "uy2", jobID := "k1" },
   { ProductID := "y1", ProductCode := "Y1", ProductURL := "uy1", jobID := "k0" }]

/-- The fetcher behavior of the C1 witness: every crawl succeeds. -/
def collectC1 : String → Except String CrawledData :=
  fun _ => .ok { Description := "d", Status := "Active",
                 ReplacementCode := "", RawHTML := "" }

/-- Witness for C1 at a concrete two-job batch completed in reverse order:
submission succeeds, the first-finished (second-submitted) job's result is
dispatched to the internal channel, the relay closes the channel after
forwarding both results, exactly 2 results are delivered, and their Jobs are
a permutation of the 2 submitted jobs. -/
theorem batch_delivers_all_witness :
    SubmitBatch genC1 (fun _ => .sendCase) 9 poolC1 jobsC1
      = ({ poolC1 with
            syncResults := insertAll (batchIDs genC1 jobsC1.length) 9 poolC1.syncResults
            queue := poolC1.queue ++ annotateJobs genC1 jobsC1 },
         .started (batchIDs genC1 jobsC1.length))
    ∧ dispatch (insertAll (batchIDs genC1 jobsC1.length) 9 poolC1.syncResults)
        (workerResult collectC1
          { ProductID := "y2", ProductCode := "Y2", ProductURL := "uy2", jobID := "k1" })
      = .syncChan 9
    ∧ (runBatchRelay jobsC1.length (batchIDs genC1 jobsC1.length)
        (insertAll (batchIDs genC1 jobsC1.length) 9 poolC1.syncResults) none
        (compC1.map (workerResult collectC1))).channelClosed = true
    ∧ (runBatchRelay jobsC1.length (batchIDs genC1 jobsC1.length)
        (insertAll (batchIDs genC1 jobsC1.length) 9 poolC1.syncResults) none
        (compC1.map (workerResult collectC1))).delivered
      = compC1.map (workerResult collectC1)
    ∧ (compC1.map (workerResult collectC1)).length = jobsC1.length
    ∧ ((compC1.map (workerResult collectC1)).map (fun r => r.Job)).Perm
        (annotateJobs genC1 jobsC1)
    ∧ ((compC1.map (workerResult collectC1)).map
        (fun r => ({ r.Job with jobID := "" } : CrawlerJob))).Perm jobsC1 := by
  have h := batch_delivers_all genC1 (fun _ => .sendCase) 9 collectC1 poolC1 jobsC1 compC1
    (by decide) rfl rfl (by decide) (by decide) genC1_ne_empty (by decide)
  refine ⟨h.1, ?_, h.2.2.1, h.2.2.2.1, h.2.2.2.2.1, h.2.2.2.2.2.1, h.2.2.2.2.2.2⟩
  exact h.2.1 (workerResult collectC1
    { ProductID := "y2", ProductCode := "Y2", ProductURL := "uy2", jobID := "k1" })
    (List.mem_map_of_mem _ (by decide))
